import Mathlib

/-!
Verification development for the repository-processing pipeline in `app/app.py`.

The Python source is embedded shallowly:

* `urlparse` / `urlunparse` / `pyQuote` model the parts of `urllib.parse`
  (`urlparse`, `urlunparse`, `quote`) that the program uses.  The exotic
  error-raising branches of CPython's `urlsplit` (IPv6 bracket validation,
  `_checknetloc`) are not modelled; they only raise for inputs the program
  never constructs.
* Every interaction with the outside world (subprocess probes, the scanner
  invocation, HTTP requests, the git clone/push, the filesystem) is resolved
  by a `World` record that fixes the outcome of each external call of one
  pipeline run, and each pipeline function additionally returns the list of
  external `Action`s it attempted and the list of `LogEntry` records it
  emitted, in order.
* A `logging` call is recorded as its format template together with the
  string constituents of its arguments (for the `f`-string call sites the
  rendered message is the template and the argument list is empty).
* Exception texts produced by external libraries (git, requests) are opaque
  strings supplied by the `World`; the text of `subprocess.CalledProcessError`
  is deterministic in CPython and is computed (`cpeStr`).
-/

namespace App

/- ## Python string helpers -/

/-- UTF-8 encoding of one character (the byte sequence CPython would see). -/
def charBytes (c : Char) : List UInt8 :=
  let n := c.toNat
  if n < 128 then [UInt8.ofNat n]
  else if n < 2048 then
    [UInt8.ofNat (192 + n / 64), UInt8.ofNat (128 + n % 64)]
  else if n < 65536 then
    [UInt8.ofNat (224 + n / 4096), UInt8.ofNat (128 + (n / 64) % 64), UInt8.ofNat (128 + n % 64)]
  else
    [UInt8.ofNat (240 + n / 262144), UInt8.ofNat (128 + (n / 4096) % 64),
     UInt8.ofNat (128 + (n / 64) % 64), UInt8.ofNat (128 + n % 64)]

/-- UTF-8 bytes of a string. -/
def strBytes (s : String) : List UInt8 :=
  (s.data.map charBytes).join

/-- Upper-case hex digit of a value below 16. -/
def hexUpper (n : Nat) : Char :=
  if n < 10 then Char.ofNat (48 + n) else Char.ofNat (55 + n)

/-- Percent-escape of one byte, `%XX` with upper-case hex as in CPython. -/
def byteHex (b : UInt8) : List Char :=
  ['%', hexUpper (b.toNat / 16), hexUpper (b.toNat % 16)]

/-- The bytes `urllib.parse.quote` never escapes: ASCII letters, digits, `_.-~`. -/
def isAlwaysSafeByte (b : UInt8) : Bool :=
  let n := b.toNat
  decide ((65 ≤ n ∧ n ≤ 90) ∨ (97 ≤ n ∧ n ≤ 122) ∨ (48 ≤ n ∧ n ≤ 57) ∨
    n = 95 ∨ n = 46 ∨ n = 45 ∨ n = 126)

/-- `urllib.parse.quote(s, safe)`: percent-escape every UTF-8 byte of `s` that is
neither always-safe nor an ASCII byte of `safe`. -/
def pyQuote (safe : String) (s : String) : String :=
  let safeB := (strBytes safe).filter (fun b => b.toNat < 128)
  String.mk (((strBytes s).map (fun b =>
    if isAlwaysSafeByte b || safeB.contains b then [Char.ofNat b.toNat] else byteHex b)).join)

/-- CPython `repr` of a string that contains no quote characters (as the scanner
command elements here): the text between single quotes. -/
def pyReprStr (s : String) : String := "\x27" ++ s ++ "\x27"

/-- CPython `str`/`repr` of a list of strings. -/
def pyReprList (l : List String) : String :=
  "[" ++ String.intercalate ", " (l.map pyReprStr) ++ "]"

/-- `str(subprocess.CalledProcessError(returncode, cmd))` for a positive exit
status: the message embeds the full command list. -/
def cpeStr (cmd : List String) (returncode : Nat) : String :=
  "Command \x27" ++ pyReprList cmd ++ "\x27 returned non-zero exit status " ++
    toString returncode ++ "."

/-- `str(FileNotFoundError)` raised by `shutil.rmtree` on a missing path. -/
def fnfMsg (p : String) : String :=
  "[Errno 2] No such file or directory: \x27" ++ p ++ "\x27"

/-- Python `s.strip(chr)` for a single character: drop it from both ends. -/
def stripChar (c : Char) (s : String) : String :=
  String.mk (((s.data.dropWhile (· = c)).reverse.dropWhile (· = c)).reverse)

/-- Worker for Python `str.replace`: replace each non-overlapping occurrence of
`old`, scanning left to right; the counter skips the tail of a match. -/
def replaceAux (old new : List Char) : Nat → List Char → List Char
  | _, [] => []
  | 0, a :: t =>
    if old.isPrefixOf (a :: t) ∧ old ≠ [] then new ++ replaceAux old new (old.length - 1) t
    else a :: replaceAux old new 0 t
  | k + 1, _ :: t => replaceAux old new k t

/-- Python `s.replace(old, new)` (for non-empty `old`): every non-overlapping
occurrence is replaced, left to right. -/
def pyReplace (s old new : String) : String :=
  String.mk (replaceAux old.data new.data 0 s.data)

/-- Python `s.split(sep)` for a one-character separator: split at every
occurrence, keeping empty pieces (`split` with an explicit separator). -/
def splitOnChar (c : Char) : List Char → List (List Char)
  | [] => [[]]
  | a :: t =>
    if a = c then [] :: splitOnChar c t
    else match splitOnChar c t with
      | h :: r => (a :: h) :: r
      | [] => [[a]]

/-- Python `s.split(sep)` for a one-character separator, as strings. -/
def pySplit (c : Char) (s : String) : List String :=
  (splitOnChar c s.data).map String.mk

/- ## urllib.parse -/

/-- Result of `urllib.parse.urlparse`: the six URL components. -/
structure ParseResult where
  scheme : String
  netloc : String
  path : String
  params : String
  query : String
  fragment : String
deriving DecidableEq, Repr

/-- Characters CPython removes from a URL before splitting (tab, CR, LF). -/
def stripControlChars (l : List Char) : List Char :=
  l.filter (fun c => !(c = '\t' || c = '\r' || c = '\n'))

/-- The characters allowed in a URL scheme. -/
def schemeChars : List Char :=
  "abcdefghijklmnopqrstuvwxyzABCDEFGHIJKLMNOPQRSTUVWXYZ0123456789+-.".data

/-- Split a character list at the first occurrence of `c` (excluded), if any. -/
def splitAtFirst (c : Char) : List Char → Option (List Char × List Char)
  | [] => none
  | a :: t =>
    if a = c then some ([], t)
    else match splitAtFirst c t with
      | some (b, r) => some (a :: b, r)
      | none => none

/-- Split a character list around the last occurrence of `c`, if any. -/
def splitAtLast (c : Char) (l : List Char) : Option (List Char × List Char) :=
  match splitAtFirst c l.reverse with
  | some (b, a) => some (a.reverse, b.reverse)
  | none => none

/-- CPython `urllib.parse._splitparams`: split `;params` off the last path
segment (only the last segment when the path contains a `/`). -/
def splitparams (path : List Char) : List Char × List Char :=
  match splitAtLast '/' path with
  | some (before, lastSeg) =>
    match splitAtFirst ';' lastSeg with
    | some (b, a) => (before ++ '/' :: b, a)
    | none => (path, [])
  | none =>
    match splitAtFirst ';' path with
    | some (b, a) => (b, a)
    | none => (path, [])

/-- CPython `urlsplit` (with `allow_fragments=True`): returns
(scheme, netloc, path, query, fragment) as character lists. -/
def urlsplitChars (url0 : List Char) : List Char × List Char × List Char × List Char × List Char :=
  let url := stripControlChars url0
  let (scheme, url) :=
    match splitAtFirst ':' url with
    | some (before, after) =>
      if before ≠ [] ∧ (before.headD ' ').isAlpha ∧ before.all (fun c => schemeChars.contains c)
      then (before.map Char.toLower, after)
      else ([], url)
    | none => ([], url)
  let (netloc, url) :=
    match url with
    | '/' :: '/' :: rest =>
      (rest.takeWhile (fun c => !(c = '/' || c = '?' || c = '#')),
       rest.dropWhile (fun c => !(c = '/' || c = '?' || c = '#')))
    | other => ([], other)
  let (url, fragment) :=
    match splitAtFirst '#' url with
    | some (b, a) => (b, a)
    | none => (url, [])
  let (url, query) :=
    match splitAtFirst '?' url with
    | some (b, a) => (b, a)
    | none => (url, [])
  (scheme, netloc, url, query, fragment)

/-- `urllib.parse.urlparse`. -/
def urlparse (s : String) : ParseResult :=
  let (scheme, netloc, rest, query, fragment) := urlsplitChars s.data
  let (path, params) := if rest.contains ';' then splitparams rest else (rest, [])
  ⟨String.mk scheme, String.mk netloc, String.mk path,
   String.mk params, String.mk query, String.mk fragment⟩

/-- The `scheme:` part `urlunsplit` prepends (empty when there is no scheme). -/
def schemePart (p : ParseResult) : String :=
  if p.scheme ≠ "" then p.scheme ++ ":" else ""

/-- The `path;params` merge performed by `urlunparse` before `urlunsplit`. -/
def pathWithParams (p : ParseResult) : String :=
  if p.params ≠ "" then p.path ++ ";" ++ p.params else p.path

/-- `urlunsplit` step: re-attach the authority. -/
def addNetloc (netloc url : String) : String :=
  if netloc ≠ "" ∨ (url ≠ "" ∧ url.take 2 = "//") then
    "//" ++ netloc ++ (if url ≠ "" ∧ url.take 1 ≠ "/" then "/" ++ url else url)
  else url

/-- `urlunsplit` step: re-attach the scheme. -/
def addScheme (scheme url : String) : String :=
  if scheme ≠ "" then scheme ++ ":" ++ url else url

/-- `urlunsplit` step: re-attach the query. -/
def addQuery (url query : String) : String :=
  if query ≠ "" then url ++ "?" ++ query else url

/-- `urlunsplit` step: re-attach the fragment. -/
def addFragment (url fragment : String) : String :=
  if fragment ≠ "" then url ++ "#" ++ fragment else url

/-- `urllib.parse.urlunsplit`. -/
def urlunsplit (scheme netloc url query fragment : String) : String :=
  addFragment (addQuery (addScheme scheme (addNetloc netloc url)) query) fragment

/-- `urllib.parse.urlunparse`: merge `path;params`, then `urlunsplit`. -/
def urlunparse (p : ParseResult) : String :=
  urlunsplit p.scheme p.netloc (pathWithParams p) p.query p.fragment

/-- Everything `urlunsplit` places after the authority: the (possibly
`/`-prefixed) `path;params`, then `?query`, then `#fragment`. -/
def tailPart (p : ParseResult) : String :=
  (if pathWithParams p ≠ "" ∧ (pathWithParams p).take 1 ≠ "/" then
    "/" ++ pathWithParams p
   else pathWithParams p)
  ++ (if p.query ≠ "" then "?" ++ p.query else "")
  ++ (if p.fragment ≠ "" then "#" ++ p.fragment else "")

/- ## Data model of one pipeline run -/

/-- The environment-derived module constants of `app.py` (all assumed present;
`GITHUB_USERNAME` already carries the `os.getenv` default `default`, and
`GITLAB_URL` its default value when unset). -/
structure Config where
  GITHUB_TOKEN : String
  SONAR_TOKEN : String
  GITLAB_TOKEN : String
  GITLAB_URL : String
  GITHUB_USERNAME : String
deriving DecidableEq, Repr

/-- One repository work item: the dict `{name, clone_url, private}` handed to
`process_repository` (`private` is a Lean keyword, hence `isPrivate`). -/
structure RepoDescriptor where
  name : String
  clone_url : String
  isPrivate : Bool
deriving DecidableEq, Repr

/-- Outcome of the `subprocess.run(["sonar-scanner", "-v"], check=True, ...)` probe. -/
inductive ScannerProbe where
  | ok
  | calledProcessError
  | fileNotFound
deriving DecidableEq, Repr

/-- Body of a successful `POST /api/v4/projects` response (the two fields read). -/
structure GitlabProjectInfo where
  http_url_to_repo : String
  web_url : String
deriving DecidableEq, Repr

/-- Outcome of the GitLab project-creation request: either the parsed body, or
the text of the `requests` exception (network error or `raise_for_status`). -/
inductive CreateProjectResult where
  | ok (info : GitlabProjectInfo)
  | requestError (e : String)
deriving DecidableEq, Repr

/-- Outcome of the issue-search request: either the `issues` list extracted from
the JSON body, or the text of the `requests` exception. -/
inductive IssuesResult where
  | ok (issues : List String)
  | requestError (e : String)
deriving DecidableEq, Repr

/-- Fixed outcomes of every external call one pipeline run can make. -/
structure World where
  /-- result of the `sonar-scanner -v` probe -/
  scannerProbe : ScannerProbe
  /-- HTTP status of `GET /api/system/status`; `none` = `requests.RequestException` -/
  statusCode : Option Nat
  /-- `some rc` = the scanner run raises `CalledProcessError` with this exit status -/
  scannerExit : Option Nat
  /-- outcome of `GET /api/issues/search` -/
  issuesResponse : IssuesResult
  /-- `os.path.exists(repo_path)` before the run touches it -/
  pathExists : Bool
  /-- `some e` = `Repo.clone_from` raises `GitError` with text `e` -/
  cloneError : Option String
  /-- content of `README.md` in the working copy, `none` when absent -/
  readmeContent : Option String
  /-- outcome of the project-creation request -/
  createProject : CreateProjectResult
  /-- `some e` = `Repo(...)`/`create_remote` raises with text `e` -/
  remoteError : Option String
  /-- `some e` = `origin.push` raises with text `e` -/
  pushError : Option String
deriving DecidableEq, Repr

/-- One attempted external operation, in the order the code reaches it. -/
inductive Action where
  | probeScanner
  | probeServer (url : String)
  | runScanner (cmd : List String)
  | httpGet (url : String)
  | rmtree (path : String)
  | clone (url : String) (path : String)
  | readReadme (path : String)
  | httpPost (url : String) (data : List (String × String))
  | createRemote (name : String) (url : String)
  | push (remote : String) (branch : String)
  | makedirs (path : String)
deriving DecidableEq, Repr

/-- Severity of a `logging` call. -/
inductive LogLevel where
  | info
  | error
deriving DecidableEq, Repr

/-- One log record: the format template and the string constituents of the
arguments passed to the `logging` call. -/
structure LogEntry where
  level : LogLevel
  template : String
  args : List String
deriving DecidableEq, Repr

/-- A computation's value together with the external actions it attempted and
the log records it emitted, in order. -/
structure Effect (α : Type) where
  val : α
  actions : List Action
  logs : List LogEntry
deriving DecidableEq, Repr

/-- The dict returned by `perform_code_analysis`: always a `status` key, plus
`issues` on success or `error` on failure (an absent key is `none`). -/
structure AnalysisResult where
  status : String
  issues : Option (List String)
  error : Option String
deriving DecidableEq, Repr

/-- The JSON body of a successful `POST /process` response. -/
structure ProcessResponse where
  analysis_result : AnalysisResult
  readme_content : String
  gitlab_url : Option String
deriving DecidableEq, Repr

/- ## The pipeline functions -/

/-- `check_sonarqube_availability`: true iff `GET /api/system/status` returns 200;
any `requests` exception yields false. -/
def check_sonarqube_availability (w : World) (sonar_host_url : String) : Bool :=
  match w.statusCode with
  | some code => code == 200
  | none => false

/-- `check_sonarscanner_availability`: true iff `sonar-scanner -v` runs and exits 0. -/
def check_sonarscanner_availability (w : World) : Bool :=
  match w.scannerProbe with
  | .ok => true
  | .calledProcessError => false
  | .fileNotFound => false

/-- The `sonar_scanner_cmd` list built in `perform_code_analysis`. -/
def sonar_scanner_cmd (cfg : Config) (project_key repo_path sonar_host_url : String) :
    List String :=
  ["sonar-scanner",
   "-Dsonar.projectKey=" ++ project_key,
   "-Dsonar.sources=" ++ repo_path,
   "-Dsonar.host.url=" ++ sonar_host_url,
   "-Dsonar.login=" ++ cfg.SONAR_TOKEN]

/-- The string constituents with which the dict `analysis_result` reaches a log
record (its status, issue and error strings). -/
def analysisLogArgs (r : AnalysisResult) : List String :=
  [r.status] ++ (match r.issues with | some l => l | none => []) ++
    (match r.error with | some e => [e] | none => [])

/-- `perform_code_analysis`: probe the scanner and the server, run the scanner,
query the issue-search API; every failure path returns a status/error dict. -/
def perform_code_analysis (w : World) (cfg : Config)
    (repo_path repo_name sonar_host_url : String) : Effect AnalysisResult :=
  let log0 : LogEntry := ⟨.info, "Performing code analysis on %s with SonarQube...", [repo_name]⟩
  if check_sonarscanner_availability w = false then
    ⟨⟨"Code analysis failed.", none, some "sonar-scanner not available"⟩,
     [.probeScanner],
     [log0, ⟨.error, "sonar-scanner is not available. Please install it and add it to your PATH.", []⟩]⟩
  else if check_sonarqube_availability w sonar_host_url = false then
    ⟨⟨"Code analysis failed.", none, some "SonarQube server not accessible"⟩,
     [.probeScanner, .probeServer (sonar_host_url ++ "/api/system/status")],
     [log0, ⟨.error, "SonarQube server is not accessible at %s", [sonar_host_url]⟩]⟩
  else
    let project_key := pyQuote "" (cfg.GITHUB_USERNAME ++ "/" ++ repo_name)
    let cmd := sonar_scanner_cmd cfg project_key repo_path sonar_host_url
    match w.scannerExit with
    | some rc =>
      ⟨⟨"Code analysis failed.", none, some (cpeStr cmd rc)⟩,
       [.probeScanner, .probeServer (sonar_host_url ++ "/api/system/status"), .runScanner cmd],
       [log0, ⟨.error, "SonarQube analysis failed for %s: %s", [repo_name, cpeStr cmd rc]⟩]⟩
    | none =>
      let sonar_api_url := sonar_host_url ++ "/api/issues/search?projectKeys=" ++ project_key
      match w.issuesResponse with
      | .requestError e =>
        ⟨⟨"Failed to fetch analysis results.", none, some e⟩,
         [.probeScanner, .probeServer (sonar_host_url ++ "/api/system/status"),
          .runScanner cmd, .httpGet sonar_api_url],
         [log0, ⟨.error, "Failed to fetch SonarQube results for %s: %s", [repo_name, e]⟩]⟩
      | .ok issues =>
        ⟨⟨"Code analysis completed successfully.", some issues, none⟩,
         [.probeScanner, .probeServer (sonar_host_url ++ "/api/system/status"),
          .runScanner cmd, .httpGet sonar_api_url],
         [log0]⟩

/-- `extract_readme`: the content of `README.md`, or the sentinel when absent. -/
def extract_readme (w : World) (repo_path : String) : Effect String :=
  let readme_path := repo_path ++ "/" ++ "README.md"
  match w.readmeContent with
  | some content => ⟨content, [.readReadme readme_path], []⟩
  | none => ⟨"README.md not found.", [.readReadme readme_path], []⟩

/-- The clone URL actually handed to `Repo.clone_from` (lines 122-130): for a
private repository the parsed URL's netloc is replaced by
`quote(github_token) ++ "@" ++ netloc` and reassembled; otherwise unchanged. -/
def auth_clone_url (repo : RepoDescriptor) (github_token : String) : String :=
  if repo.isPrivate then
    let parsed_url := urlparse repo.clone_url
    urlunparse { parsed_url with netloc := pyQuote "/" github_token ++ "@" ++ parsed_url.netloc }
  else repo.clone_url

/-- `process_repository`: delete a stale working copy, clone (with the token
embedded for private repositories), then analyse and extract the README.
A `GitError` from the clone is caught and logged; nothing further runs. -/
def process_repository (w : World) (cfg : Config) (repo : RepoDescriptor)
    (clone_directory sonar_host_url : String) : Effect Unit :=
  let repo_name := repo.name
  let repo_path := clone_directory ++ "/" ++ repo_name
  let log0 : LogEntry := ⟨.info, "Processing repository: %s", [repo_name]⟩
  let pre : List Action := if w.pathExists then [.rmtree repo_path] else []
  let url := auth_clone_url repo cfg.GITHUB_TOKEN
  match w.cloneError with
  | some e =>
    ⟨(), pre ++ [.clone url repo_path],
     [log0, ⟨.error, "Git error while cloning %s: %s", [repo_name, e]⟩]⟩
  | none =>
    let analysis := perform_code_analysis w cfg repo_path repo_name sonar_host_url
    let readme := extract_readme w repo_path
    ⟨(), pre ++ [.clone url repo_path] ++ analysis.actions ++ readme.actions,
     [log0, ⟨.info, "Successfully cloned %s.", [repo_name]⟩] ++ analysis.logs ++
      [⟨.info, "Analysis result for %s: %s", repo_name :: analysisLogArgs analysis.val⟩,
       ⟨.info, "README content for %s:\n%s", [repo_name, readme.val]⟩]⟩

/-- The authenticated GitLab remote URL (line 184):
`http_url_to_repo` with `https://` replaced by `https://oauth2:TOKEN@`. -/
def gitlab_remote_url (cfg : Config) (info : GitlabProjectInfo) : String :=
  pyReplace info.http_url_to_repo "https://" ("https://oauth2:" ++ cfg.GITLAB_TOKEN ++ "@")

/-- `push_to_gitlab`: create the project (private visibility), register the
authenticated remote, push `master`, return `web_url`; any exception is caught,
logged (`f`-string, so the rendered message is the template) and yields `None`. -/
def push_to_gitlab (w : World) (cfg : Config)
    (repo_path repo_name github_url : String) : Effect (Option String) :=
  let parsed_url := urlparse github_url
  let path_parts := pySplit '/' (stripChar '/' parsed_url.path)
  let _github_user := path_parts.headD ""
  let gitlab_api_url := cfg.GITLAB_URL ++ "/api/v4/projects"
  let data := [("name", repo_name), ("visibility", "private")]
  match w.createProject with
  | .requestError e =>
    ⟨none, [.httpPost gitlab_api_url data],
     [⟨.error, "Error pushing to GitLab: " ++ e, []⟩]⟩
  | .ok info =>
    let remote := gitlab_remote_url cfg info
    match w.remoteError with
    | some e =>
      ⟨none, [.httpPost gitlab_api_url data, .createRemote "gitlab" remote],
       [⟨.error, "Error pushing to GitLab: " ++ e, []⟩]⟩
    | none =>
      match w.pushError with
      | some e =>
        ⟨none, [.httpPost gitlab_api_url data, .createRemote "gitlab" remote,
                .push "gitlab" "master"],
         [⟨.error, "Error pushing to GitLab: " ++ e, []⟩]⟩
      | none =>
        ⟨some info.web_url,
         [.httpPost gitlab_api_url data, .createRemote "gitlab" remote,
          .push "gitlab" "master"], []⟩

/-- `repo_url.split('/')[-1].replace('.git', '')` in the `/process` handler. -/
def handlerRepoName (repo_url : String) : String :=
  pyReplace ((pySplit '/' repo_url).getLastD "") ".git" ""

/-- The `POST /process` handler `process_repo`: builds a descriptor with
`private: False`, runs `process_repository`, then (independently) a second
analysis, the GitLab push and the README read, deletes the working copy and
returns the JSON body; the final `shutil.rmtree` raises `FileNotFoundError`
when the clone failed (the path is absent), which the handler turns into a
500 response (`Except.error`). -/
def process_repo (w : World) (cfg : Config) (repo_url : String) :
    Effect (Except String ProcessResponse) :=
  let repo_name := handlerRepoName repo_url
  let clone_directory := "temp_repos"
  let repo_path := clone_directory ++ "/" ++ repo_name
  let r1 := process_repository w cfg ⟨repo_name, repo_url, false⟩ clone_directory
    "http://localhost:9000"
  let analysis := perform_code_analysis w cfg repo_path repo_name "http://localhost:9000"
  let gitlab := push_to_gitlab w cfg repo_path repo_name repo_url
  let readme := extract_readme w repo_path
  let baseActions := Action.makedirs clone_directory :: r1.actions ++ analysis.actions ++
    gitlab.actions ++ readme.actions
  let baseLogs := r1.logs ++ analysis.logs ++ gitlab.logs
  match w.cloneError with
  | none =>
    ⟨.ok ⟨analysis.val, readme.val, gitlab.val⟩, baseActions ++ [.rmtree repo_path], baseLogs⟩
  | some _ =>
    ⟨.error (fnfMsg repo_path), baseActions ++ [.rmtree repo_path], baseLogs⟩

/- ## Observation helpers -/

/-- Is this action a clone attempt? -/
def isClone : Action → Bool
  | .clone _ _ => true
  | _ => false

/-- Is this action a scanner invocation? -/
def isRunScanner : Action → Bool
  | .runScanner _ => true
  | _ => false

/-- Is this action an HTTP GET (the issue-search query)? -/
def isHttpGet : Action → Bool
  | .httpGet _ => true
  | _ => false

/-- Is this action an HTTP POST (the project-creation call)? -/
def isHttpPost : Action → Bool
  | .httpPost _ _ => true
  | _ => false

/-- Is this action the README read? -/
def isReadReadme : Action → Bool
  | .readReadme _ => true
  | _ => false

/-- The string constituents of one log record: its template and its arguments. -/
def entryStrings (e : LogEntry) : List String := e.template :: e.args

/-- All string constituents of a list of log records. -/
def logStrings (logs : List LogEntry) : List String :=
  (logs.map entryStrings).flatten

/-- Does `needle` occur in `hay` as a contiguous sublist? -/
def containsSub (needle : List Char) : List Char → Bool
  | [] => needle.isEmpty
  | a :: t => needle.isPrefixOf (a :: t) || containsSub needle t

/-- `occursIn sec s` is true iff `sec` occurs in `s` as a contiguous substring. -/
def occursIn (sec s : String) : Bool := containsSub sec.data s.data

/-- Every string that can reach a log record of `perform_code_analysis`:
its constant templates/messages, the repository name, the server URL, the
computed `CalledProcessError` text, and the `requests` exception text. -/
def analysisExternals (w : World) (cfg : Config)
    (repo_path repo_name sonar_host_url : String) : List String :=
  ["Performing code analysis on %s with SonarQube...",
   "sonar-scanner is not available. Please install it and add it to your PATH.",
   "SonarQube server is not accessible at %s",
   "SonarQube analysis failed for %s: %s",
   "Failed to fetch SonarQube results for %s: %s",
   repo_name, sonar_host_url]
  ++ (match w.scannerExit with
      | some rc => [cpeStr (sonar_scanner_cmd cfg
          (pyQuote "" (cfg.GITHUB_USERNAME ++ "/" ++ repo_name)) repo_path sonar_host_url) rc]
      | none => [])
  ++ (match w.issuesResponse with | .requestError e => [e] | .ok _ => [])

/-- Every string that can reach a log record of `process_repository`
(including the embedded analysis stage): constants, the repository name, the
git error text, the README content and the analysis-result constituents. -/
def repoExternals (w : World) (cfg : Config) (repo : RepoDescriptor)
    (clone_directory sonar_host_url : String) : List String :=
  analysisExternals w cfg (clone_directory ++ "/" ++ repo.name) repo.name sonar_host_url
  ++ ["Processing repository: %s", "Git error while cloning %s: %s",
      "Successfully cloned %s.", "Analysis result for %s: %s",
      "README content for %s:\n%s",
      "Code analysis failed.", "Failed to fetch analysis results.",
      "Code analysis completed successfully.",
      "sonar-scanner not available", "SonarQube server not accessible",
      "README.md not found."]
  ++ (match w.cloneError with | some e => [e] | none => [])
  ++ (match w.readmeContent with | some c => [c] | none => [])
  ++ (match w.issuesResponse with | .ok l => l | .requestError _ => [])

/-- Every string that can reach a log record of `push_to_gitlab`: the rendered
`f`-string messages around the caught exception texts. -/
def pushExternals (w : World) : List String :=
  (match w.createProject with
   | .requestError e => ["Error pushing to GitLab: " ++ e]
   | .ok _ => [])
  ++ (match w.remoteError with | some e => ["Error pushing to GitLab: " ++ e] | none => [])
  ++ (match w.pushError with | some e => ["Error pushing to GitLab: " ++ e] | none => [])

/-- Every string that can reach a log record of one full pipeline run
(`process_repository` followed by `push_to_gitlab`). -/
def pipelineExternals (w : World) (cfg : Config) (repo : RepoDescriptor)
    (clone_directory sonar_host_url : String) : List String :=
  repoExternals w cfg repo clone_directory sonar_host_url ++ pushExternals w

/-- All string constituents of the log records of one full pipeline run. -/
def pipelineLogStrings (w : World) (cfg : Config) (repo : RepoDescriptor)
    (clone_directory sonar_host_url : String) : List String :=
  logStrings ((process_repository w cfg repo clone_directory sonar_host_url).logs ++
    (push_to_gitlab w cfg (clone_directory ++ "/" ++ repo.name) repo.name repo.clone_url).logs)

/-- The secret material of one pipeline run: the two access tokens, the
rewritten (token-bearing) clone URL, and the authenticated GitLab remote URL
when the project-creation call returned one. -/
def pipelineSecrets (w : World) (cfg : Config) (repo : RepoDescriptor) : List String :=
  [cfg.GITHUB_TOKEN, cfg.GITLAB_TOKEN, auth_clone_url repo cfg.GITHUB_TOKEN]
  ++ (match w.createProject with
      | .ok info => [gitlab_remote_url cfg info]
      | .requestError _ => [])

/- ## Sample data for concrete runs -/

/-- A sample configuration with recognisable secret values. -/
def cfg0 : Config :=
  ⟨"ghSECRETtok", "sonarSECRET", "glSECRETtok", "https://gitlab.example", "alice"⟩

/-- A sample project-creation response body. -/
def infoOk : GitlabProjectInfo :=
  ⟨"https://gitlab.example/alice/demo.git", "https://gitlab.example/alice/demo"⟩

/-- A world in which every external call succeeds. -/
def wOk : World :=
  ⟨.ok, some 200, none, .ok ["issueA"], true, none, some "Readme text", .ok infoOk, none, none⟩

/-- A world in which the scanner binary is missing (first probe fails). -/
def wProbeFail : World := { wOk with scannerProbe := .fileNotFound }

/-- A world in which the probes pass but the scanner exits with status 1. -/
def wScanFail : World := { wOk with scannerExit := some 1 }

/-- A world in which the clone raises `GitError` and everything else succeeds. -/
def wCloneFail : World := { wOk with cloneError := some "fatal: repository not found" }

/-- A world in which the project-creation call fails. -/
def wCreateFail : World := { wOk with createProject := .requestError "403 Client Error" }

/-- A sample private repository descriptor. -/
def dPriv : RepoDescriptor := ⟨"demo", "https://github.com/alice/demo.git", true⟩

/- ## Supporting lemmas -/

theorem str_ext {a b : String} (h : a.data = b.data) : a = b := by
  cases a; cases b; exact congrArg String.mk h

theorem analysis_has_probe (w : World) (cfg : Config)
    (repo_path repo_name sonar_host_url : String) :
    Action.probeScanner ∈ (perform_code_analysis w cfg repo_path repo_name sonar_host_url).actions := by
  cases h1 : check_sonarscanner_availability w <;>
  cases h2 : check_sonarqube_availability w sonar_host_url <;>
  cases h3 : w.scannerExit <;>
  cases h4 : w.issuesResponse <;>
  simp [perform_code_analysis, h1, h2, h3, h4]

theorem analysis_clone_free (w : World) (cfg : Config)
    (repo_path repo_name sonar_host_url : String) :
    (perform_code_analysis w cfg repo_path repo_name sonar_host_url).actions.any isClone = false := by
  cases h1 : check_sonarscanner_availability w <;>
  cases h2 : check_sonarqube_availability w sonar_host_url <;>
  cases h3 : w.scannerExit <;>
  cases h4 : w.issuesResponse <;>
  simp [perform_code_analysis, h1, h2, h3, h4, isClone]

theorem push_clone_free (w : World) (cfg : Config)
    (repo_path repo_name github_url : String) :
    (push_to_gitlab w cfg repo_path repo_name github_url).actions.any isClone = false := by
  cases h1 : w.createProject <;> cases h2 : w.remoteError <;> cases h3 : w.pushError <;>
  simp [push_to_gitlab, h1, h2, h3, isClone]

theorem readme_clone_free (w : World) (repo_path : String) :
    (extract_readme w repo_path).actions.any isClone = false := by
  cases h : w.readmeContent <;> simp [extract_readme, h, isClone]

theorem push_has_post (w : World) (cfg : Config)
    (repo_path repo_name github_url : String) :
    (push_to_gitlab w cfg repo_path repo_name github_url).actions.any isHttpPost = true := by
  cases h1 : w.createProject <;> cases h2 : w.remoteError <;> cases h3 : w.pushError <;>
  simp [push_to_gitlab, h1, h2, h3, isHttpPost]

theorem readme_has_read (w : World) (repo_path : String) :
    (extract_readme w repo_path).actions.any isReadReadme = true := by
  cases h : w.readmeContent <;> simp [extract_readme, h, isReadReadme]

theorem not_clone_mem_of_clone_free {l : List Action} (h : l.any isClone = false)
    (u p : String) : Action.clone u p ∉ l := by
  intro hm
  rw [List.any_eq_false] at h
  simpa [isClone] using h _ hm

theorem process_repository_has_clone (w : World) (cfg : Config) (repo : RepoDescriptor)
    (clone_directory sonar_host_url : String) :
    Action.clone (auth_clone_url repo cfg.GITHUB_TOKEN) (clone_directory ++ "/" ++ repo.name)
      ∈ (process_repository w cfg repo clone_directory sonar_host_url).actions := by
  cases hc : w.cloneError <;> cases hpe : w.pathExists <;>
    simp [process_repository, hc, hpe]

theorem process_repository_clone_target (w : World) (cfg : Config) (repo : RepoDescriptor)
    (clone_directory sonar_host_url : String) (u p : String)
    (hmem : Action.clone u p ∈
      (process_repository w cfg repo clone_directory sonar_host_url).actions) :
    u = auth_clone_url repo cfg.GITHUB_TOKEN ∧ p = clone_directory ++ "/" ++ repo.name := by
  cases hc : w.cloneError <;> cases hpe : w.pathExists <;>
    simp [process_repository, hc, hpe] at hmem
  case none.false =>
    rcases hmem with h | h | h
    · exact h
    · exact absurd h (not_clone_mem_of_clone_free (analysis_clone_free w cfg _ _ _) u p)
    · exact absurd h (not_clone_mem_of_clone_free (readme_clone_free w _) u p)
  case none.true =>
    rcases hmem with h | h | h
    · exact h
    · exact absurd h (not_clone_mem_of_clone_free (analysis_clone_free w cfg _ _ _) u p)
    · exact absurd h (not_clone_mem_of_clone_free (readme_clone_free w _) u p)
  case some.false => exact hmem
  case some.true => exact hmem

theorem process_repo_actions (w : World) (cfg : Config) (repo_url : String) :
    (process_repo w cfg repo_url).actions =
      Action.makedirs "temp_repos" ::
        (process_repository w cfg ⟨handlerRepoName repo_url, repo_url, false⟩ "temp_repos"
          "http://localhost:9000").actions ++
        (perform_code_analysis w cfg ("temp_repos" ++ "/" ++ handlerRepoName repo_url)
          (handlerRepoName repo_url) "http://localhost:9000").actions ++
        (push_to_gitlab w cfg ("temp_repos" ++ "/" ++ handlerRepoName repo_url)
          (handlerRepoName repo_url) repo_url).actions ++
        (extract_readme w ("temp_repos" ++ "/" ++ handlerRepoName repo_url)).actions ++
        [.rmtree ("temp_repos" ++ "/" ++ handlerRepoName repo_url)] := by
  cases hc : w.cloneError <;> simp [process_repo, hc]

theorem at_data : ("@" : String).data = ['@'] := rfl

theorem empty_data : ("" : String).data = [] := rfl

theorem mid_append_ne_empty (a b : String) : a ++ "@" ++ b ≠ "" := by
  intro h
  have h2 := congrArg String.data h
  simp [String.data_append, at_data, empty_data] at h2

theorem addNetloc_eq (n u : String) (hn : n ≠ "") :
    addNetloc n u = "//" ++ n ++ (if u ≠ "" ∧ u.take 1 ≠ "/" then "/" ++ u else u) := by
  unfold addNetloc
  rw [if_pos (Or.inl hn)]

theorem addScheme_eq (s u : String) :
    addScheme s u = (if s ≠ "" then s ++ ":" else "") ++ u := by
  unfold addScheme
  split_ifs
  · rfl
  · apply str_ext
    simp [String.data_append, empty_data]

theorem addQuery_eq (u q : String) :
    addQuery u q = u ++ (if q ≠ "" then "?" ++ q else "") := by
  unfold addQuery
  split_ifs
  · apply str_ext
    simp [String.data_append, List.append_assoc]
  · apply str_ext
    simp [String.data_append, empty_data]

theorem addFragment_eq (u f : String) :
    addFragment u f = u ++ (if f ≠ "" then "#" ++ f else "") := by
  unfold addFragment
  split_ifs
  · apply str_ext
    simp [String.data_append, List.append_assoc]
  · apply str_ext
    simp [String.data_append, empty_data]

theorem urlunparse_netloc (p : ParseResult) (hn : p.netloc ≠ "") :
    urlunparse p = schemePart p ++ "//" ++ p.netloc ++ tailPart p := by
  unfold urlunparse urlunsplit
  rw [addNetloc_eq _ _ hn, addScheme_eq, addQuery_eq, addFragment_eq]
  unfold schemePart tailPart
  apply str_ext
  simp [String.data_append, List.append_assoc]

/- ## Claim theorems -/

/-- Claim C4: for a private descriptor whose clone URL parses with a non-empty
authority and round-trips through `urlparse`/`urlunparse`, the URL handed to
the clone is the original URL with the percent-escaped token inserted as the
userinfo segment of the authority (`token@host`), while the scheme part and
everything after the authority (path, params, query, fragment) are unchanged;
for a non-private descriptor the URL is handed over unmodified. -/
theorem claim_C4_clone_url_rewrite (repo : RepoDescriptor) (github_token : String)
    (hrt : urlunparse (urlparse repo.clone_url) = repo.clone_url)
    (hn : (urlparse repo.clone_url).netloc ≠ "") :
    (repo.isPrivate = false → auth_clone_url repo github_token = repo.clone_url)
  ∧ (repo.isPrivate = true →
      auth_clone_url repo github_token =
        schemePart (urlparse repo.clone_url) ++ "//" ++
        (pyQuote "/" github_token ++ "@" ++ (urlparse repo.clone_url).netloc) ++
        tailPart (urlparse repo.clone_url)
    ∧ repo.clone_url =
        schemePart (urlparse repo.clone_url) ++ "//" ++ (urlparse repo.clone_url).netloc ++
        tailPart (urlparse repo.clone_url)) := by
  constructor
  · intro h
    simp [auth_clone_url, h]
  · intro h
    constructor
    · have hmod := urlunparse_netloc
        { urlparse repo.clone_url with
            netloc := pyQuote "/" github_token ++ "@" ++ (urlparse repo.clone_url).netloc }
        (mid_append_ne_empty _ _)
      simpa [auth_clone_url, h, schemePart, tailPart, pathWithParams] using hmod
    · conv_lhs => rw [← hrt]
      exact urlunparse_netloc _ hn

theorem claim_C4_witness :
    urlunparse (urlparse dPriv.clone_url) = dPriv.clone_url
  ∧ (urlparse dPriv.clone_url).netloc ≠ ""
  ∧ ((dPriv.isPrivate = false → auth_clone_url dPriv "tok en" = dPriv.clone_url)
    ∧ (dPriv.isPrivate = true →
        auth_clone_url dPriv "tok en" =
          schemePart (urlparse dPriv.clone_url) ++ "//" ++
          (pyQuote "/" "tok en" ++ "@" ++ (urlparse dPriv.clone_url).netloc) ++
          tailPart (urlparse dPriv.clone_url)
      ∧ dPriv.clone_url =
          schemePart (urlparse dPriv.clone_url) ++ "//" ++ (urlparse dPriv.clone_url).netloc ++
          tailPart (urlparse dPriv.clone_url))) :=
  ⟨rfl, by decide, claim_C4_clone_url_rewrite dPriv "tok en" rfl (by decide)⟩

/-- Claim C5: for every input, the analysis stage is a total function returning a
well-formed `AnalysisResult`: a status string, with the issue list populated and
no error detail on success, or no issue list and an error detail on every
failure path — never a partially populated record. -/
theorem claim_C5_analysis_wellformed (w : World) (cfg : Config)
    (repo_path repo_name sonar_host_url : String) :
    ((perform_code_analysis w cfg repo_path repo_name sonar_host_url).val.status =
        "Code analysis completed successfully."
      ∧ (perform_code_analysis w cfg repo_path repo_name sonar_host_url).val.issues.isSome = true
      ∧ (perform_code_analysis w cfg repo_path repo_name sonar_host_url).val.error = none)
  ∨ (((perform_code_analysis w cfg repo_path repo_name sonar_host_url).val.status =
        "Code analysis failed."
      ∨ (perform_code_analysis w cfg repo_path repo_name sonar_host_url).val.status =
        "Failed to fetch analysis results.")
      ∧ (perform_code_analysis w cfg repo_path repo_name sonar_host_url).val.issues = none
      ∧ (perform_code_analysis w cfg repo_path repo_name sonar_host_url).val.error.isSome = true) := by
  cases h1 : check_sonarscanner_availability w <;>
  cases h2 : check_sonarqube_availability w sonar_host_url <;>
  cases h3 : w.scannerExit <;>
  cases h4 : w.issuesResponse <;>
  simp [perform_code_analysis, h1, h2, h3, h4]

/-- Claim C6: when both availability probes pass and the scanner subprocess
exits non-zero, the outcome is the failure record carrying the
`CalledProcessError` text and the issue-search HTTP query is never attempted. -/
theorem claim_C6_scanner_failure_blocks_query (w : World) (cfg : Config)
    (repo_path repo_name sonar_host_url : String) (rc : Nat)
    (h1 : check_sonarscanner_availability w = true)
    (h2 : check_sonarqube_availability w sonar_host_url = true)
    (h3 : w.scannerExit = some rc) :
    (perform_code_analysis w cfg repo_path repo_name sonar_host_url).val =
      ⟨"Code analysis failed.", none,
       some (cpeStr (sonar_scanner_cmd cfg
         (pyQuote "" (cfg.GITHUB_USERNAME ++ "/" ++ repo_name)) repo_path sonar_host_url) rc)⟩
  ∧ (perform_code_analysis w cfg repo_path repo_name sonar_host_url).actions.any isHttpGet
      = false := by
  simp [perform_code_analysis, h1, h2, h3, isHttpGet]

theorem claim_C6_witness :
    check_sonarscanner_availability wScanFail = true
  ∧ check_sonarqube_availability wScanFail "http://localhost:9000" = true
  ∧ wScanFail.scannerExit = some 1
  ∧ ((perform_code_analysis wScanFail cfg0 "temp_repos/demo" "demo" "http://localhost:9000").val =
      ⟨"Code analysis failed.", none,
       some (cpeStr (sonar_scanner_cmd cfg0
         (pyQuote "" (cfg0.GITHUB_USERNAME ++ "/" ++ "demo")) "temp_repos/demo"
         "http://localhost:9000") 1)⟩
    ∧ (perform_code_analysis wScanFail cfg0 "temp_repos/demo" "demo"
        "http://localhost:9000").actions.any isHttpGet = false) :=
  ⟨rfl, rfl, rfl,
   claim_C6_scanner_failure_blocks_query wScanFail cfg0 "temp_repos/demo" "demo"
     "http://localhost:9000" 1 rfl rfl rfl⟩

/-- Claim C3 counterexample: when the scanner probe fails, the returned status
string is exactly the one returned for a scanner (analysis) failure —
`Code analysis failed.` — so the outcome does not carry a distinct `Skipped`
status: the status cannot distinguish a skipped analysis from a failed one. -/
theorem claim_C3_counterexample :
    (perform_code_analysis wProbeFail cfg0 "temp_repos/demo" "demo" "http://localhost:9000").val.status
      = (perform_code_analysis wScanFail cfg0 "temp_repos/demo" "demo" "http://localhost:9000").val.status
  ∧ (perform_code_analysis wProbeFail cfg0 "temp_repos/demo" "demo" "http://localhost:9000").val.status
      = "Code analysis failed." := ⟨rfl, rfl⟩

/-- Claim C3 (amended): if either availability probe fails, the analysis
returns the generic failure status `Code analysis failed.` (the same status
string as a scanner failure, not a distinct Skipped marker) together with an
explanatory error message, and neither the scanner invocation nor the
issue-search API query is performed. -/
theorem claim_C3_amended (w : World) (cfg : Config)
    (repo_path repo_name sonar_host_url : String)
    (h : check_sonarscanner_availability w = false
       ∨ check_sonarqube_availability w sonar_host_url = false) :
    ((perform_code_analysis w cfg repo_path repo_name sonar_host_url).val =
        ⟨"Code analysis failed.", none, some "sonar-scanner not available"⟩
      ∨ (perform_code_analysis w cfg repo_path repo_name sonar_host_url).val =
        ⟨"Code analysis failed.", none, some "SonarQube server not accessible"⟩)
  ∧ (perform_code_analysis w cfg repo_path repo_name sonar_host_url).actions.any isRunScanner
      = false
  ∧ (perform_code_analysis w cfg repo_path repo_name sonar_host_url).actions.any isHttpGet
      = false := by
  cases h1 : check_sonarscanner_availability w <;>
  cases h2 : check_sonarqube_availability w sonar_host_url <;>
  simp_all [perform_code_analysis, isRunScanner, isHttpGet]

theorem claim_C3_witness :
    (check_sonarscanner_availability wProbeFail = false
      ∨ check_sonarqube_availability wProbeFail "http://localhost:9000" = false)
  ∧ (((perform_code_analysis wProbeFail cfg0 "temp_repos/demo" "demo" "http://localhost:9000").val =
        ⟨"Code analysis failed.", none, some "sonar-scanner not available"⟩
      ∨ (perform_code_analysis wProbeFail cfg0 "temp_repos/demo" "demo" "http://localhost:9000").val =
        ⟨"Code analysis failed.", none, some "SonarQube server not accessible"⟩)
    ∧ (perform_code_analysis wProbeFail cfg0 "temp_repos/demo" "demo"
        "http://localhost:9000").actions.any isRunScanner = false
    ∧ (perform_code_analysis wProbeFail cfg0 "temp_repos/demo" "demo"
        "http://localhost:9000").actions.any isHttpGet = false) :=
  ⟨Or.inl rfl,
   claim_C3_amended wProbeFail cfg0 "temp_repos/demo" "demo" "http://localhost:9000"
     (Or.inl rfl)⟩

/-- Claim C7: when a directory already exists at the working-copy path, the
trace of `process_repository` begins by recursively deleting that path and then
cloning into it, so the working copy is always freshly created. -/
theorem claim_C7_fresh_working_copy (w : World) (cfg : Config) (repo : RepoDescriptor)
    (clone_directory sonar_host_url : String) (h : w.pathExists = true) :
    ∃ rest, (process_repository w cfg repo clone_directory sonar_host_url).actions =
      Action.rmtree (clone_directory ++ "/" ++ repo.name) ::
      Action.clone (auth_clone_url repo cfg.GITHUB_TOKEN)
        (clone_directory ++ "/" ++ repo.name) :: rest := by
  cases hc : w.cloneError <;> simp [process_repository, h, hc]

theorem claim_C7_witness :
    wOk.pathExists = true
  ∧ ∃ rest, (process_repository wOk cfg0 dPriv "temp_repos" "http://localhost:9000").actions =
      Action.rmtree ("temp_repos" ++ "/" ++ dPriv.name) ::
      Action.clone (auth_clone_url dPriv cfg0.GITHUB_TOKEN)
        ("temp_repos" ++ "/" ++ dPriv.name) :: rest :=
  ⟨rfl, claim_C7_fresh_working_copy wOk cfg0 dPriv "temp_repos" "http://localhost:9000" rfl⟩

/-- Claim C9: on a successful mirror publication the publisher POSTs the
project-creation endpoint requesting private visibility, registers the
token-authenticated remote named `gitlab`, pushes `master` to it and returns
exactly the web URL of the creation response; and a non-success creation
response (a `requests` exception from `raise_for_status`) yields no URL and no
remote/push attempt. -/
theorem claim_C9_mirror_publication (w : World) (cfg : Config)
    (repo_path repo_name github_url : String) (info : GitlabProjectInfo)
    (hc : w.createProject = .ok info) (hr : w.remoteError = none) (hp : w.pushError = none)
    (w2 : World) (e : String) (hc2 : w2.createProject = .requestError e) :
    (push_to_gitlab w cfg repo_path repo_name github_url).val = some info.web_url
  ∧ (push_to_gitlab w cfg repo_path repo_name github_url).actions =
      [.httpPost (cfg.GITLAB_URL ++ "/api/v4/projects")
         [("name", repo_name), ("visibility", "private")],
       .createRemote "gitlab" (gitlab_remote_url cfg info),
       .push "gitlab" "master"]
  ∧ (push_to_gitlab w2 cfg repo_path repo_name github_url).val = none
  ∧ (push_to_gitlab w2 cfg repo_path repo_name github_url).actions =
      [.httpPost (cfg.GITLAB_URL ++ "/api/v4/projects")
         [("name", repo_name), ("visibility", "private")]] := by
  simp [push_to_gitlab, hc, hr, hp, hc2]

theorem claim_C9_witness :
    wOk.createProject = .ok infoOk
  ∧ wOk.remoteError = none
  ∧ wOk.pushError = none
  ∧ wCreateFail.createProject = .requestError "403 Client Error"
  ∧ ((push_to_gitlab wOk cfg0 "temp_repos/demo" "demo"
        "https://github.com/alice/demo.git").val = some infoOk.web_url
    ∧ (push_to_gitlab wOk cfg0 "temp_repos/demo" "demo"
        "https://github.com/alice/demo.git").actions =
        [.httpPost (cfg0.GITLAB_URL ++ "/api/v4/projects")
           [("name", "demo"), ("visibility", "private")],
         .createRemote "gitlab" (gitlab_remote_url cfg0 infoOk),
         .push "gitlab" "master"]
    ∧ (push_to_gitlab wCreateFail cfg0 "temp_repos/demo" "demo"
        "https://github.com/alice/demo.git").val = none
    ∧ (push_to_gitlab wCreateFail cfg0 "temp_repos/demo" "demo"
        "https://github.com/alice/demo.git").actions =
        [.httpPost (cfg0.GITLAB_URL ++ "/api/v4/projects")
           [("name", "demo"), ("visibility", "private")]]) :=
  ⟨rfl, rfl, rfl, rfl,
   claim_C9_mirror_publication wOk cfg0 "temp_repos/demo" "demo"
     "https://github.com/alice/demo.git" infoOk rfl rfl rfl wCreateFail
     "403 Client Error" rfl⟩

/-- Claim C10: the `POST /process` handler constructs its descriptor with the
private flag false, so the token-embedding rewrite is never taken on the
inbound path: the only clone attempt in the handler's trace uses the
caller-supplied URL unmodified. -/
theorem claim_C10_inbound_never_private (w : World) (cfg : Config) (repo_url : String) :
    Action.clone repo_url ("temp_repos" ++ "/" ++ handlerRepoName repo_url)
      ∈ (process_repo w cfg repo_url).actions
  ∧ (∀ u p, Action.clone u p ∈ (process_repo w cfg repo_url).actions →
      u = repo_url ∧ p = "temp_repos" ++ "/" ++ handlerRepoName repo_url)
  ∧ auth_clone_url ⟨handlerRepoName repo_url, repo_url, false⟩ cfg.GITHUB_TOKEN = repo_url := by
  refine ⟨?_, ?_, rfl⟩
  · have h := process_repository_has_clone w cfg ⟨handlerRepoName repo_url, repo_url, false⟩
      "temp_repos" "http://localhost:9000"
    have h2 : Action.clone repo_url ("temp_repos" ++ "/" ++ handlerRepoName repo_url) ∈
        (process_repository w cfg ⟨handlerRepoName repo_url, repo_url, false⟩ "temp_repos"
          "http://localhost:9000").actions := by
      simpa [auth_clone_url] using h
    rw [process_repo_actions]
    simp [List.mem_append]
    tauto
  · intro u p hmem
    rw [process_repo_actions] at hmem
    simp [List.mem_append] at hmem
    rcases hmem with h | h | h | h
    · have := process_repository_clone_target w cfg
        ⟨handlerRepoName repo_url, repo_url, false⟩ "temp_repos" "http://localhost:9000" u p h
      simpa [auth_clone_url] using this
    · exact absurd h (not_clone_mem_of_clone_free (analysis_clone_free w cfg _ _ _) u p)
    · exact absurd h (not_clone_mem_of_clone_free (push_clone_free w cfg _ _ _) u p)
    · exact absurd h (not_clone_mem_of_clone_free (readme_clone_free w _) u p)

/-- Claim C8: when the clone succeeded but any mirror-publisher step fails
(project-creation error, remote registration error, or push error), the
publisher swallows the exception and returns no URL, and the handler still
completes successfully with the analysis outcome and README content exactly as
the analysis and extraction stages produced them — only the mirror URL is
absent. -/
theorem claim_C8_mirror_soft_failure (w : World) (cfg : Config) (repo_url : String)
    (hclone : w.cloneError = none)
    (hfail : (∃ e, w.createProject = .requestError e)
      ∨ w.remoteError ≠ none ∨ w.pushError ≠ none) :
    (push_to_gitlab w cfg ("temp_repos" ++ "/" ++ handlerRepoName repo_url)
        (handlerRepoName repo_url) repo_url).val = none
  ∧ (process_repo w cfg repo_url).val =
      .ok ⟨(perform_code_analysis w cfg ("temp_repos" ++ "/" ++ handlerRepoName repo_url)
              (handlerRepoName repo_url) "http://localhost:9000").val,
           (extract_readme w ("temp_repos" ++ "/" ++ handlerRepoName repo_url)).val,
           none⟩ := by
  have hnone : (push_to_gitlab w cfg ("temp_repos" ++ "/" ++ handlerRepoName repo_url)
      (handlerRepoName repo_url) repo_url).val = none := by
    rcases hfail with ⟨e, he⟩ | hrem | hpush
    · simp [push_to_gitlab, he]
    · cases hR : w.remoteError with
      | none => exact absurd hR hrem
      | some e =>
        cases hC : w.createProject with
        | requestError e2 => simp [push_to_gitlab, hC]
        | ok info => simp [push_to_gitlab, hC, hR]
    · cases hP : w.pushError with
      | none => exact absurd hP hpush
      | some e =>
        cases hC : w.createProject with
        | requestError e2 => simp [push_to_gitlab, hC]
        | ok info =>
          cases hR : w.remoteError with
          | some e3 => simp [push_to_gitlab, hC, hR]
          | none => simp [push_to_gitlab, hC, hR, hP]
  refine ⟨hnone, ?_⟩
  simp [process_repo, hclone]
  simpa using hnone

theorem claim_C8_witness :
    wCreateFail.cloneError = none
  ∧ ((∃ e, wCreateFail.createProject = .requestError e)
      ∨ wCreateFail.remoteError ≠ none ∨ wCreateFail.pushError ≠ none)
  ∧ ((push_to_gitlab wCreateFail cfg0
        ("temp_repos" ++ "/" ++ handlerRepoName "https://github.com/alice/demo.git")
        (handlerRepoName "https://github.com/alice/demo.git")
        "https://github.com/alice/demo.git").val = none
    ∧ (process_repo wCreateFail cfg0 "https://github.com/alice/demo.git").val =
        .ok ⟨(perform_code_analysis wCreateFail cfg0
                ("temp_repos" ++ "/" ++ handlerRepoName "https://github.com/alice/demo.git")
                (handlerRepoName "https://github.com/alice/demo.git")
                "http://localhost:9000").val,
             (extract_readme wCreateFail
                ("temp_repos" ++ "/" ++ handlerRepoName "https://github.com/alice/demo.git")).val,
             none⟩) :=
  ⟨rfl, Or.inl ⟨"403 Client Error", rfl⟩,
   claim_C8_mirror_soft_failure wCreateFail cfg0 "https://github.com/alice/demo.git" rfl
     (Or.inl ⟨"403 Client Error", rfl⟩)⟩

/-- Claim C2 counterexample: at a concrete run in which the clone fails, the
handler's trace still contains a scanner invocation (analysis attempted), a
project-creation POST (mirror attempted) and a README read (document
extraction attempted) — the repository's run is not aborted by the clone
failure. -/
theorem claim_C2_counterexample :
    wCloneFail.cloneError ≠ none
  ∧ (process_repo wCloneFail cfg0 "https://github.com/alice/demo.git").actions.any isRunScanner
      = true
  ∧ (process_repo wCloneFail cfg0 "https://github.com/alice/demo.git").actions.any isHttpPost
      = true
  ∧ (process_repo wCloneFail cfg0 "https://github.com/alice/demo.git").actions.any isReadReadme
      = true :=
  ⟨by decide, rfl, rfl, rfl⟩

/-- Claim C2 (amended): a clone failure aborts only `process_repository`
itself — inside it no analysis or document extraction is attempted after the
failed clone and the failure is surfaced as a single logged git-error
diagnostic — but the `/process` handler does not abort the repository's run:
it still attempts the analysis stage, the mirror step and the README
extraction on the working-copy path, and finally fails with the cleanup's
file-not-found error rather than a clone-failure condition. -/
theorem claim_C2_amended (w : World) (cfg : Config) (repo : RepoDescriptor)
    (clone_directory sonar_host_url repo_url : String) (e : String)
    (hclone : w.cloneError = some e) :
    ((process_repository w cfg repo clone_directory sonar_host_url).actions =
        (if w.pathExists then [Action.rmtree (clone_directory ++ "/" ++ repo.name)] else []) ++
        [Action.clone (auth_clone_url repo cfg.GITHUB_TOKEN)
          (clone_directory ++ "/" ++ repo.name)]
    ∧ (process_repository w cfg repo clone_directory sonar_host_url).logs =
        [⟨.info, "Processing repository: %s", [repo.name]⟩,
         ⟨.error, "Git error while cloning %s: %s", [repo.name, e]⟩])
  ∧ ((process_repo w cfg repo_url).val =
        .error (fnfMsg ("temp_repos" ++ "/" ++ handlerRepoName repo_url))
    ∧ Action.probeScanner ∈ (process_repo w cfg repo_url).actions
    ∧ (process_repo w cfg repo_url).actions.any isHttpPost = true
    ∧ (process_repo w cfg repo_url).actions.any isReadReadme = true) := by
  refine ⟨⟨?_, ?_⟩, ?_, ?_, ?_, ?_⟩
  · simp [process_repository, hclone]
  · simp [process_repository, hclone]
  · simp [process_repo, hclone]
  · have h := analysis_has_probe w cfg ("temp_repos" ++ "/" ++ handlerRepoName repo_url)
      (handlerRepoName repo_url) "http://localhost:9000"
    rw [process_repo_actions]
    simp [List.mem_append]
    tauto
  · rw [process_repo_actions]
    simp [List.any_append, push_has_post]
  · rw [process_repo_actions]
    simp [List.any_append, readme_has_read]

theorem claim_C2_witness :
    wCloneFail.cloneError = some "fatal: repository not found"
  ∧ (((process_repository wCloneFail cfg0 dPriv "temp_repos" "http://localhost:9000").actions =
        (if wCloneFail.pathExists then
          [Action.rmtree ("temp_repos" ++ "/" ++ dPriv.name)] else []) ++
        [Action.clone (auth_clone_url dPriv cfg0.GITHUB_TOKEN)
          ("temp_repos" ++ "/" ++ dPriv.name)]
    ∧ (process_repository wCloneFail cfg0 dPriv "temp_repos" "http://localhost:9000").logs =
        [⟨.info, "Processing repository: %s", [dPriv.name]⟩,
         ⟨.error, "Git error while cloning %s: %s",
          [dPriv.name, "fatal: repository not found"]⟩])
  ∧ ((process_repo wCloneFail cfg0 "https://github.com/alice/demo.git").val =
        .error (fnfMsg ("temp_repos" ++ "/" ++ handlerRepoName "https://github.com/alice/demo.git"))
    ∧ Action.probeScanner ∈ (process_repo wCloneFail cfg0 "https://github.com/alice/demo.git").actions
    ∧ (process_repo wCloneFail cfg0 "https://github.com/alice/demo.git").actions.any isHttpPost = true
    ∧ (process_repo wCloneFail cfg0 "https://github.com/alice/demo.git").actions.any isReadReadme = true)) :=
  ⟨rfl,
   claim_C2_amended wCloneFail cfg0 dPriv "temp_repos" "http://localhost:9000"
     "https://github.com/alice/demo.git" "fatal: repository not found" rfl⟩

theorem logStrings_append (a b : List LogEntry) :
    logStrings (a ++ b) = logStrings a ++ logStrings b := by
  simp [logStrings]

theorem analysis_logStrings_sub (w : World) (cfg : Config)
    (repo_path repo_name sonar_host_url : String) :
    ∀ s ∈ logStrings (perform_code_analysis w cfg repo_path repo_name sonar_host_url).logs,
      s ∈ analysisExternals w cfg repo_path repo_name sonar_host_url := by
  intro s hs
  cases h1 : check_sonarscanner_availability w <;>
  cases h2 : check_sonarqube_availability w sonar_host_url <;>
  cases h3 : w.scannerExit <;>
  cases h4 : w.issuesResponse <;>
  simp_all [perform_code_analysis, logStrings, entryStrings, analysisExternals] <;>
  tauto

theorem analysisLogArgs_sub (w : World) (cfg : Config)
    (repo_path repo_name sonar_host_url : String) :
    ∀ s ∈ analysisLogArgs (perform_code_analysis w cfg repo_path repo_name sonar_host_url).val,
      s ∈ ["Code analysis failed.", "Failed to fetch analysis results.",
           "Code analysis completed successfully.", "sonar-scanner not available",
           "SonarQube server not accessible"]
        ++ analysisExternals w cfg repo_path repo_name sonar_host_url
        ++ (match w.issuesResponse with | .ok l => l | .requestError _ => []) := by
  intro s hs
  cases h1 : check_sonarscanner_availability w <;>
  cases h2 : check_sonarqube_availability w sonar_host_url <;>
  cases h3 : w.scannerExit <;>
  cases h4 : w.issuesResponse <;>
  simp_all [perform_code_analysis, analysisLogArgs, analysisExternals] <;>
  tauto

set_option maxHeartbeats 2000000 in
theorem repo_logStrings_sub (w : World) (cfg : Config) (repo : RepoDescriptor)
    (clone_directory sonar_host_url : String) :
    ∀ s ∈ logStrings (process_repository w cfg repo clone_directory sonar_host_url).logs,
      s ∈ repoExternals w cfg repo clone_directory sonar_host_url := by
  intro s hs
  cases hc : w.cloneError with
  | some e =>
    simp only [process_repository, hc] at hs
    simp [logStrings, entryStrings] at hs
    simp [repoExternals, analysisExternals, hc]
    tauto
  | none =>
    simp only [process_repository, hc] at hs
    rw [logStrings_append, logStrings_append] at hs
    rcases List.mem_append.mp hs with h | h
    · rcases List.mem_append.mp h with h | h
      · simp [logStrings, entryStrings] at h
        simp [repoExternals, analysisExternals]
        tauto
      · have h2 := analysis_logStrings_sub w cfg (clone_directory ++ "/" ++ repo.name)
          repo.name sonar_host_url s h
        unfold repoExternals
        exact List.mem_append_left _ (List.mem_append_left _ (List.mem_append_left _
          (List.mem_append_left _ h2)))
    · cases h5 : w.readmeContent with
      | some c =>
        simp [logStrings, entryStrings, extract_readme, h5] at h
        rcases h with h | h | h | h | h
        · simp [repoExternals, analysisExternals, h5]; tauto
        · simp [repoExternals, analysisExternals, h5]; tauto
        · have h2 := analysisLogArgs_sub w cfg (clone_directory ++ "/" ++ repo.name)
            repo.name sonar_host_url s h
          rcases List.mem_append.mp h2 with h3 | h3
          · rcases List.mem_append.mp h3 with h4 | h4
            · simp at h4
              simp [repoExternals]
              tauto
            · unfold repoExternals
              exact List.mem_append_left _ (List.mem_append_left _ (List.mem_append_left _
                (List.mem_append_left _ h4)))
          · unfold repoExternals
            exact List.mem_append_right _ h3
        · simp [repoExternals, analysisExternals, h5]; tauto
        · simp [repoExternals, analysisExternals, h5]; tauto
      | none =>
        simp [logStrings, entryStrings, extract_readme, h5] at h
        rcases h with h | h | h | h | h
        · simp [repoExternals, analysisExternals, h5]; tauto
        · simp [repoExternals, analysisExternals, h5]; tauto
        · have h2 := analysisLogArgs_sub w cfg (clone_directory ++ "/" ++ repo.name)
            repo.name sonar_host_url s h
          rcases List.mem_append.mp h2 with h3 | h3
          · rcases List.mem_append.mp h3 with h4 | h4
            · simp at h4
              simp [repoExternals]
              tauto
            · unfold repoExternals
              exact List.mem_append_left _ (List.mem_append_left _ (List.mem_append_left _
                (List.mem_append_left _ h4)))
          · unfold repoExternals
            exact List.mem_append_right _ h3
        · simp [repoExternals, analysisExternals, h5]; tauto
        · simp [repoExternals, analysisExternals, h5]; tauto

theorem push_logStrings_sub (w : World) (cfg : Config)
    (repo_path repo_name github_url : String) :
    ∀ s ∈ logStrings (push_to_gitlab w cfg repo_path repo_name github_url).logs,
      s ∈ pushExternals w := by
  intro s hs
  cases hC : w.createProject <;> cases hR : w.remoteError <;> cases hP : w.pushError <;>
  simp_all [push_to_gitlab, logStrings, entryStrings, pushExternals]

theorem pipeline_logStrings_sub (w : World) (cfg : Config) (repo : RepoDescriptor)
    (clone_directory sonar_host_url : String) :
    ∀ s ∈ pipelineLogStrings w cfg repo clone_directory sonar_host_url,
      s ∈ pipelineExternals w cfg repo clone_directory sonar_host_url := by
  intro s hs
  rw [pipelineLogStrings, logStrings_append] at hs
  rw [pipelineExternals]
  rcases List.mem_append.mp hs with h | h
  · exact List.mem_append_left _ (repo_logStrings_sub w cfg repo clone_directory sonar_host_url s h)
  · exact List.mem_append_right _ (push_logStrings_sub w cfg _ _ _ s h)

/-- Claim C1: the pipeline only ever logs strings drawn from its non-secret
sources (constant templates, the repository name, the server URL, external
error texts, the README content, the issue list); hence whenever a secret —
the access tokens, the rewritten token-bearing clone URL, or the authenticated
GitLab remote URL — does not occur inside those externally supplied texts, it
does not occur in any emitted log record. -/
theorem claim_C1_secrets_never_logged (w : World) (cfg : Config) (repo : RepoDescriptor)
    (clone_directory sonar_host_url : String) (sec : String)
    (hsec : sec ∈ pipelineSecrets w cfg repo)
    (hext : ∀ s ∈ pipelineExternals w cfg repo clone_directory sonar_host_url,
      occursIn sec s = false) :
    ∀ s ∈ pipelineLogStrings w cfg repo clone_directory sonar_host_url,
      occursIn sec s = false := by
  intro s hs
  exact hext s (pipeline_logStrings_sub w cfg repo clone_directory sonar_host_url s hs)

theorem claim_C1_witness :
    gitlab_remote_url cfg0 infoOk ∈ pipelineSecrets wOk cfg0 dPriv
  ∧ (∀ s ∈ pipelineExternals wOk cfg0 dPriv "temp_repos" "http://localhost:9000",
      occursIn (gitlab_remote_url cfg0 infoOk) s = false)
  ∧ (∀ s ∈ pipelineLogStrings wOk cfg0 dPriv "temp_repos" "http://localhost:9000",
      occursIn (gitlab_remote_url cfg0 infoOk) s = false) :=
  ⟨by decide, by decide,
   claim_C1_secrets_never_logged wOk cfg0 dPriv "temp_repos" "http://localhost:9000"
     (gitlab_remote_url cfg0 infoOk) (by decide) (by decide)⟩

end App
